import Mathlib

/-!
Verification of the BASP broker (src/libcaf_io/src/basp_broker.cpp) of the
actor-framework repository.

The broker state and its operations are embedded shallowly.  Operations are
pure functions from a `BrokerState` (plus operation arguments) to a new
`BrokerState` together with a list of observable `Effect`s (messages written
to the wire, callback deliveries, enqueues into mailboxes, connection control
actions).  Collaborators of the broker that live outside the `src/` tree of
the repository (the routing table, the actor namespace front end, the actor
registry, the synchronous-request bouncer and the protocol state machine
result) are modelled from the specification; each such definition carries a
doc comment saying so.  Logging statements (CAF_LOG_*) are not modelled: they
are trace output, not behaviour.
-/

/-- Node identifiers; `0` plays the role of `invalid_node_id`. -/
abbrev NodeId := Nat

/-- Actor identifiers; `0` plays the role of `invalid_actor_id`. -/
abbrev ActorId := Nat

/-- The pair used by `actor_addr`: originating node plus actor id. -/
structure ActorAddr where
  node : NodeId
  id : ActorId
  deriving DecidableEq, Repr

/-- The value `invalid_actor_addr`: the default-constructed, invalid address. -/
def invalidActorAddr : ActorAddr := ⟨0, 0⟩

/-- Modelled from the spec: `MessageId` is a tagged identifier that
distinguishes asynchronous sends from request/response pairs and carries the
`valid()` and `is_request()` predicates.  A nonzero request id makes it
valid; a valid id that is not marked as a response is a request. -/
structure MessageId where
  requestId : Nat
  isResponse : Bool
  deriving DecidableEq, Repr

/-- Predicate `message_id::valid()`: the id carries a (nonzero) request id. -/
def MessageId.valid (m : MessageId) : Bool := m.requestId != 0

/-- Predicate `message_id::is_request()`: valid and not a response. -/
def MessageId.isRequest (m : MessageId) : Bool := m.valid && !m.isResponse

/-- Exit reason `not_exited` (an actor that is still running). -/
def notExited : Nat := 0

/-- Exit reason `normal`. -/
def normalReason : Nat := 1

/-- Exit reason `remote_link_unreachable`. -/
def remoteLinkUnreachable : Nat := 261

/-- Modelled from the spec: the routing table maps node ids to direct
connection handles (a bijection) and records one-hop indirect routes as
target-to-next-hop pairs. -/
structure RoutingTable where
  direct : List (NodeId × Nat)
  indirect : List (NodeId × NodeId)
  deriving DecidableEq, Repr

/-- Modelled from the spec: `lookup_direct(n)` returns the direct connection
handle registered for `n`, if any. -/
def lookupDirect (t : RoutingTable) (n : NodeId) : Option Nat :=
  t.direct.lookup n

/-- A routing path: the connection handle of the next hop plus the final
destination node.  (The write-buffer reference of the source is represented
by the hop handle.) -/
structure RoutePath where
  hop : Nat
  dest : NodeId
  deriving DecidableEq, Repr

/-- Modelled from the spec: `lookup(n)` prefers a direct route and otherwise
follows the indirect next-hop exactly one hop; the next hop must itself be
direct for the path to exist. -/
def RoutingTable.lookupPath (t : RoutingTable) (n : NodeId) : Option RoutePath :=
  match lookupDirect t n with
  | some h => some ⟨h, n⟩
  | none =>
    match t.indirect.lookup n with
    | some via => (lookupDirect t via).map (fun h => ⟨h, n⟩)
    | none => none

/-- Modelled from the spec: `add_indirect(via, target)` is a no-op when a
direct route to `target` exists; otherwise it records `via` as the next hop
of `target`, provided `via` itself has a direct route.  (With the next hop
required to be direct, a one-hop indirect entry can never form a cycle, so
the cycle rejection of the spec holds by construction.) -/
def addIndirect (t : RoutingTable) (via target : NodeId) : RoutingTable :=
  if (lookupDirect t target).isSome then t
  else if (lookupDirect t via).isNone then t
  else { t with indirect := (target, via) :: t.indirect.filter (fun p => p.1 != target) }

/-- Reply messages delivered to a pending handshake callback
(`response_promise::deliver`). -/
inductive CbMsg where
  | okAddr (a : ActorAddr)
  | errMsg (s : String)
  deriving DecidableEq, Repr

/-- Connection states of the BASP protocol machine
(`basp::connection_state`). -/
inductive ConnState where
  | awaitHeader
  | awaitPayload
  | closeConnection
  deriving DecidableEq, Repr

/-- The part of a decoded BASP header the broker code reads
(`ctx.hdr.payload_len`). -/
structure Header where
  payloadLen : Nat
  deriving DecidableEq, Repr

/-- Constant `basp::header_size`, a compile-time constant; the exact value is
irrelevant to the claims. -/
def headerSize : Nat := 68

/-- Per-connection state (`basp_broker_state::connection_context`), field
order as in the source aggregate initialisation. -/
structure ConnectionContext where
  cstate : ConnState
  hdr : Header
  hdl : Nat
  id : NodeId
  remotePort : Nat
  callback : Option Unit
  expectedSigs : List String
  deriving DecidableEq, Repr

/-- Modelled from the spec: the process-wide actor registry, consumed through
`get_addr` and `get_entry`.  `live` holds the ids of currently registered
running actors; `reasons` stores exit reasons of terminated actors. -/
structure Registry where
  live : List ActorId
  reasons : List (ActorId × Nat)
  deriving DecidableEq, Repr

/-- The broker state: own node id, BASP instance routing table, proxy
namespace (as the set of registered (node, actor) proxies), connection
contexts, `known_remotes`, and the injected actor registry. -/
structure BrokerState where
  thisNode : NodeId
  tbl : RoutingTable
  ns : List (NodeId × ActorId)
  ctxs : List (Nat × ConnectionContext)
  knownRemotes : List (NodeId × Nat × ActorAddr)
  registry : Registry
  deriving DecidableEq, Repr

/-- Predicate `actor_addr::is_remote()`: the address is valid and its node is not the
local node. -/
def isRemote (s : BrokerState) (a : ActorAddr) : Bool :=
  a != invalidActorAddr && a.node != s.thisNode

/-- Observable effects of broker operations. -/
inductive Effect where
  | bounce (src : ActorAddr) (mid : MessageId) (rsn : Nat)
  | enqueueMsg (dest : ActorAddr) (src : ActorAddr) (mid : MessageId)
  | announceProxy (nid : NodeId) (aid : ActorId)
  | killProxy (nid : NodeId) (aid : ActorId) (rsn : Nat)
  | deliverCb (m : CbMsg)
  | dispatched (sender receiver : ActorAddr) (mid : MessageId)
  | closeConn (hdl : Nat)
  | configRead (hdl : Nat) (n : Nat)
  | hookNewRemote (a : ActorAddr)
  deriving DecidableEq, Repr

/-- Modelled from the spec: `detail::sync_request_bouncer` synthesises an
error response to the sender so that its future completes; it acts only when
the sender expects a reply, that is when the message id marks a request and
the sender address is valid, and is a no-op otherwise. -/
def bouncerEffects (rsn : Nat) (sender : ActorAddr) (mid : MessageId) : List Effect :=
  if mid.isRequest = true ∧ sender ≠ invalidActorAddr then
    [Effect.bounce sender mid rsn]
  else []

/-- Function `basp_broker_state::make_proxy(nid, aid)`: reject invalid ids, learn an
indirect route through the current peer when `nid` is a third node, then look
up a path; without a path no proxy is created, otherwise the proxy is
registered, `announce_proxy_instance` is written and flushed, and the
`new_remote_actor` hook fires.  `ctxId` is `this_context->id`, the peer node
of the connection being served. -/
def make_proxy (s : BrokerState) (ctxId : NodeId) (nid : NodeId) (aid : ActorId) :
    BrokerState × List Effect × Option ActorAddr :=
  if nid = 0 ∨ aid = 0 then (s, [], none)
  else
    let s1 := if nid ≠ ctxId then { s with tbl := addIndirect s.tbl ctxId nid } else s
    match s1.tbl.lookupPath nid with
    | none => (s1, [], none)
    | some _ =>
      ({ s1 with ns := (nid, aid) :: s1.ns },
       [Effect.announceProxy nid aid, Effect.hookNewRemote ⟨nid, aid⟩],
       some ⟨nid, aid⟩)

/-- Modelled from the spec: `actor_namespace::get_or_put(nid, aid)` returns
the already-registered proxy for the pair or asks the backend
(`basp_broker_state::make_proxy`) to create one. -/
def get_or_put (s : BrokerState) (ctxId : NodeId) (nid : NodeId) (aid : ActorId) :
    BrokerState × List Effect × Option ActorAddr :=
  if (nid, aid) ∈ s.ns then (s, [], some ⟨nid, aid⟩)
  else make_proxy s ctxId nid aid

/-- Modelled from the spec: `actor_registry::get_addr(aid)` resolves a
running local actor to its address and yields the invalid address
otherwise. -/
def registryAddr (s : BrokerState) (aid : ActorId) : ActorAddr :=
  if aid ∈ s.registry.live then ⟨s.thisNode, aid⟩ else invalidActorAddr

/-- Modelled from the spec: `actor_registry::get_entry(aid)` yields the actor
pointer together with `not_exited` for running actors, and a null pointer
with the recorded exit reason (default `remote_link_unreachable`) for
terminated or unknown ids. -/
def registryEntry (s : BrokerState) (aid : ActorId) : Option ActorAddr × Nat :=
  if aid ∈ s.registry.live then (some ⟨s.thisNode, aid⟩, notExited)
  else (none, ((s.registry.reasons.lookup aid).getD remoteLinkUnreachable))

/-- Emulates `std::includes(sigs, exp)` on sorted sets: every expected signature
occurs among the advertised ones. -/
def setIncludes (exp sigs : List String) : Bool :=
  exp.all (fun x => sigs.contains x)

/-- The effect of the scope guard in `finalize_handshake`: reset the callback
to `none` and clear the expected signatures. -/
def clearCb (c : ConnectionContext) : ConnectionContext :=
  { c with callback := none, expectedSigs := [] }

/-- Function `basp_broker_state::finalize_handshake(nid, aid, sigs)`: record the peer
node id; if no callback is pending do nothing more; otherwise (under a scope
guard that clears callback and expected signatures on every path) deliver
either the signature-mismatch error, or an ok reply with the invalid address
when `aid` is invalid, or an ok reply with the resolved actor address,
remembering the remote in `known_remotes` (a `std::map::emplace`, which does
not overwrite an existing key).  Returns the new broker state, the updated
context (`this_context`) and the delivered messages. -/
def finalize_handshake (s : BrokerState) (c : ConnectionContext) (nid : NodeId)
    (aid : ActorId) (sigs : List String) : BrokerState × ConnectionContext × List Effect :=
  let c0 := { c with id := nid }
  match c0.callback with
  | none => (s, c0, [])
  | some _ =>
    if setIncludes c0.expectedSigs sigs = false then
      (s, clearCb c0,
       [Effect.deliverCb (CbMsg.errMsg
          "expected signature does not comply to found signature")])
    else if aid = 0 then
      (s, clearCb c0, [Effect.deliverCb (CbMsg.okAddr invalidActorAddr)])
    else
      let r :=
        if nid = s.thisNode then
          (s, ([] : List Effect),
           if aid ∈ s.registry.live then some (ActorAddr.mk s.thisNode aid) else none)
        else get_or_put s nid nid aid
      let s1 := r.1
      let addr := (r.2.2).getD invalidActorAddr
      let s2 :=
        if isRemote s1 addr = true then
          (if s1.knownRemotes.any (fun k => k.1 == nid) then s1
           else { s1 with knownRemotes := (nid, c0.remotePort, addr) :: s1.knownRemotes })
        else s1
      (s2, clearCb c0, r.2.1 ++ [Effect.deliverCb (CbMsg.okAddr addr)])

/-- Function `basp_broker_state::purge_state(nid)`: a no-op unless the routing table
has a direct handle for `nid`; otherwise kill every local proxy of `nid`
with `remote_link_unreachable`, erase them from the namespace, erase the
connection context stored under the direct handle, and forget
`known_remotes[nid]`.  The routing table itself is not modified here. -/
def purge_state (s : BrokerState) (nid : NodeId) : BrokerState × List Effect :=
  match lookupDirect s.tbl nid with
  | none => (s, [])
  | some hdl =>
    let proxies := s.ns.filter (fun p => p.1 == nid)
    ({ s with
        ns := s.ns.filter (fun p => p.1 != nid),
        ctxs := s.ctxs.filter (fun c => c.1 != hdl),
        knownRemotes := s.knownRemotes.filter (fun k => k.1 != nid) },
     proxies.map (fun p => Effect.killProxy p.1 p.2 remoteLinkUnreachable))

/-- Function `basp_broker_state::kill_proxy(nid, aid, rsn)`: if no proxy is registered
under the pair the call returns immediately; otherwise the proxy is erased
from the namespace and killed with `rsn`. -/
def kill_proxy (s : BrokerState) (nid : NodeId) (aid : ActorId) (rsn : Nat) :
    BrokerState × List Effect :=
  if (nid, aid) ∈ s.ns then
    ({ s with ns := s.ns.filter (fun p => p != (nid, aid)) },
     [Effect.killProxy nid aid rsn])
  else (s, [])

/-- Source resolution step of `basp_broker_state::deliver`: a local source is
resolved through the registry, a remote one through the namespace
(`get_or_put`); a failed proxy creation leaves the default-constructed
invalid address. -/
def resolveSrc (s : BrokerState) (ctxId : NodeId) (sn : NodeId) (sa : ActorId) :
    BrokerState × List Effect × ActorAddr :=
  if sn = s.thisNode then (s, [], registryAddr s sa)
  else
    let r := get_or_put s ctxId sn sa
    (r.1, r.2.1, (r.2.2).getD invalidActorAddr)

/-- Destination resolution step of `basp_broker_state::deliver`: a local
destination is looked up in the registry via `get_entry` (which also yields
the exit reason used for a bounce), a remote one through the namespace; for
remote destinations the bounce reason stays at its initialisation,
`remote_link_unreachable`. -/
def resolveDest (s : BrokerState) (ctxId : NodeId) (dn : NodeId) (da : ActorId) :
    BrokerState × List Effect × Option ActorAddr × Nat :=
  if dn = s.thisNode then
    let e := registryEntry s da
    (s, [], e.1, e.2)
  else
    let r := get_or_put s ctxId dn da
    (r.1, r.2.1, r.2.2, remoteLinkUnreachable)

/-- Function `basp_broker_state::deliver(source_node, source_actor, dest_node,
dest_actor, msg, mid)`: resolve the source, then the destination; if the
destination is missing, invoke the sync-request bouncer provided the message
id is valid and the source address is valid, and otherwise drop; if the
destination exists, enqueue the message. -/
def deliver (s : BrokerState) (ctxId : NodeId) (sn : NodeId) (sa : ActorId)
    (dn : NodeId) (da : ActorId) (mid : MessageId) : BrokerState × List Effect :=
  let r1 := resolveSrc s ctxId sn sa
  let src := r1.2.2
  let r2 := resolveDest r1.1 ctxId dn da
  match r2.2.2.1 with
  | none =>
    if mid.valid = true ∧ src ≠ invalidActorAddr then
      (r2.1, r1.2.1 ++ r2.2.1 ++ bouncerEffects r2.2.2.2 src mid)
    else (r2.1, r1.2.1 ++ r2.2.1)
  | some d => (r2.1, r1.2.1 ++ r2.2.1 ++ [Effect.enqueueMsg d src mid])

/-- Function `basp_broker_state::set_context(hdl)`: find the connection context for
`hdl`, creating a fresh one (awaiting a header, with no peer id and no
callback) if none exists; returns the state with the context present plus
the context itself. -/
def set_context (s : BrokerState) (hdl : Nat) : BrokerState × ConnectionContext :=
  match s.ctxs.lookup hdl with
  | some c => (s, c)
  | none =>
    let c : ConnectionContext :=
      ⟨ConnState.awaitHeader, ⟨0⟩, hdl, 0, 0, none, []⟩
    ({ s with ctxs := (hdl, c) :: s.ctxs }, c)

/-- Function `basp_broker_state::erase_context(hdl)`: nothing happens for an unknown
handle; otherwise, if a handshake callback is still pending, it is delivered
the error "disconnect during handshake", and the context is erased.  Returns
the state, whether a context was erased, and the delivered messages. -/
def erase_context (s : BrokerState) (hdl : Nat) : BrokerState × Bool × List Effect :=
  match s.ctxs.lookup hdl with
  | none => (s, false, [])
  | some c =>
    ({ s with ctxs := s.ctxs.filter (fun p => p.1 != hdl) }, true,
     match c.callback with
     | some _ => [Effect.deliverCb (CbMsg.errMsg "disconnect during handshake")]
     | none => [])

/-- Store `c` as the context of handle `hdl`. -/
def putCtx (s : BrokerState) (hdl : Nat) (c : ConnectionContext) : BrokerState :=
  { s with ctxs := (hdl, c) :: s.ctxs.filter (fun p => p.1 != hdl) }

/-- The `new_data_msg` handler of `basp_broker::make_behavior`: select the
context, feed the bytes to the protocol machine (whose verdict `next` and
header write-back `hdrAfter` are inputs here, since `basp::instance::handle`
lives outside the broker source), then either close the connection and erase
the context directly from the map (`state.ctx.erase(msg.handle)` — NOT
`erase_context`), or reconfigure the read size when the connection state
changed. -/
def handleNewData (s : BrokerState) (hdl : Nat) (next : ConnState) (hdrAfter : Header) :
    BrokerState × List Effect :=
  let r := set_context s hdl
  let c1 := { r.2 with hdr := hdrAfter }
  if next = ConnState.closeConnection then
    ({ r.1 with ctxs := r.1.ctxs.filter (fun p => p.1 != hdl) },
     [Effect.closeConn hdl])
  else if next ≠ c1.cstate then
    let rdSize := if next = ConnState.awaitPayload then c1.hdr.payloadLen else headerSize
    (putCtx r.1 hdl { c1 with cstate := next }, [Effect.configRead hdl rdSize])
  else (putCtx r.1 hdl c1, [])

/-- Modelled from the spec: `basp::instance::dispatch(sender, receiver, mid,
msg)` looks up a path to the node of the receiver, fails when there is none,
and otherwise writes a `dispatch_message` and flushes it along the path. -/
def dispatchMsg (s : BrokerState) (sender receiver : ActorAddr) (mid : MessageId) :
    BrokerState × List Effect × Bool :=
  match s.tbl.lookupPath receiver.node with
  | some _ => (s, [Effect.dispatched sender receiver mid], true)
  | none => (s, [], false)

/-- Function `actor_registry::put`: register a (local) actor id as live. -/
def regPut (r : Registry) (aid : ActorId) : Registry :=
  if aid ∈ r.live then r else { r with live := aid :: r.live }

/-- The `forward_atom` handler of `basp_broker::make_behavior`: an invalid or
local receiver makes the handler log a warning and return without any further
action; otherwise a valid local sender is registered, the message is handed
to BASP dispatch, and a failed dispatch of a request is bounced with
`remote_link_unreachable`. -/
def forwardHandler (s : BrokerState) (sender receiver : ActorAddr) (mid : MessageId) :
    BrokerState × List Effect :=
  if receiver = invalidActorAddr ∨ isRemote s receiver = false then (s, [])
  else
    let s1 :=
      if sender ≠ invalidActorAddr ∧ isRemote s sender = false then
        { s with registry := regPut s.registry sender.id }
      else s
    let r := dispatchMsg s1 sender receiver mid
    if r.2.2 = false ∧ mid.isRequest = true then
      (r.1, r.2.1 ++ bouncerEffects remoteLinkUnreachable sender mid)
    else (r.1, r.2.1)

/-- Composition used by the handshake-exclusivity claim: run
`finalize_handshake` on the context of a connection, store the updated
context back (the source mutates it in place through `this_context`), then
erase that context as a later `connection_closed` would; the result is the
concatenation of all callback deliveries. -/
def finalizeThenErase (s : BrokerState) (c : ConnectionContext) (nid : NodeId)
    (aid : ActorId) (sigs : List String) : List Effect :=
  let r := finalize_handshake s c nid aid sigs
  let s2 := putCtx r.1 c.hdl r.2.1
  r.2.2 ++ (erase_context s2 c.hdl).2.2

/-- Detect a bounce among emitted effects. -/
def isBounceE : Effect → Bool
  | Effect.bounce _ _ _ => true
  | _ => false

/-- Detect an enqueue among emitted effects. -/
def isEnqueueE : Effect → Bool
  | Effect.enqueueMsg _ _ _ => true
  | _ => false

/-- Detect a handshake-callback delivery among emitted effects. -/
def isCbE : Effect → Bool
  | Effect.deliverCb _ => true
  | _ => false

/-- Whether a list of effects contains a bounce. -/
def hasBounce (l : List Effect) : Bool := l.any isBounceE

/-- Whether a list of effects contains an enqueue. -/
def hasEnqueue (l : List Effect) : Bool := l.any isEnqueueE

/-- Number of handshake-callback deliveries in a list of effects. -/
def countCb (l : List Effect) : Nat := (l.filter isCbE).length

theorem filter_idem {α : Type} (p : α → Bool) (l : List α) :
    (l.filter p).filter p = l.filter p := by
  induction l with
  | nil => rfl
  | cons a t ih =>
    by_cases h : p a = true
    · simp [List.filter, h, ih]
    · simp [List.filter, h, ih]

theorem hasBounce_append (a b : List Effect) :
    hasBounce (a ++ b) = (hasBounce a || hasBounce b) := by
  simp [hasBounce, List.any_append]

theorem hasEnqueue_append (a b : List Effect) :
    hasEnqueue (a ++ b) = (hasEnqueue a || hasEnqueue b) := by
  simp [hasEnqueue, List.any_append]

theorem countCb_append (a b : List Effect) :
    countCb (a ++ b) = countCb a + countCb b := by
  simp [countCb, List.filter_append]

/-- C8.  Idempotent purge: running `purge_state(nid)` a second time yields
the post-state of the first run.  The first run does not change the routing
table, so the second run takes the same branch; every container erasure it
performs is a filter that has already been applied. -/
theorem purge_state_idem (s : BrokerState) (nid : NodeId) :
    (purge_state (purge_state s nid).1 nid).1 = (purge_state s nid).1 := by
  cases hlk : lookupDirect s.tbl nid with
  | none => simp [purge_state, hlk]
  | some hdl => simp [purge_state, hlk, filter_idem]

/-- C9.  `kill_proxy(nid, aid, rsn)` for a pair that has no registered proxy
is a no-op: the broker state is returned unchanged and nothing is emitted. -/
theorem kill_proxy_missing_noop (s : BrokerState) (nid : NodeId) (aid : ActorId)
    (rsn : Nat) (h : (nid, aid) ∉ s.ns) :
    kill_proxy s nid aid rsn = (s, []) := by
  simp [kill_proxy, h]

def W9 : BrokerState := ⟨1, ⟨[], []⟩, [], [], [], ⟨[], []⟩⟩

theorem kill_proxy_missing_noop_witness :
    (3, 4) ∉ W9.ns ∧ kill_proxy W9 3 4 261 = (W9, []) :=
  ⟨by decide, kill_proxy_missing_noop W9 3 4 261 (by decide)⟩

/-- C7.  `make_proxy(nid, aid)` creates a proxy only when the routing table
(after the indirect-route learning step) holds a path to `nid`: a returned
proxy implies a path exists in the resulting table, and the lack of a path
implies no proxy was created. -/
theorem make_proxy_requires_route (s : BrokerState) (ctxId nid : NodeId) (aid : ActorId) :
    ((make_proxy s ctxId nid aid).2.2.isSome = true →
      ((make_proxy s ctxId nid aid).1.tbl.lookupPath nid).isSome = true)
    ∧ (((make_proxy s ctxId nid aid).1.tbl.lookupPath nid).isSome = false →
      (make_proxy s ctxId nid aid).2.2 = none) := by
  unfold make_proxy
  split
  · simp
  · split <;> (dsimp only; split <;> simp_all)

def W7 : BrokerState := ⟨1, ⟨[(2, 7)], []⟩, [], [], [], ⟨[], []⟩⟩

def W7b : BrokerState := ⟨1, ⟨[], []⟩, [], [], [], ⟨[], []⟩⟩

theorem make_proxy_requires_route_witness :
    (((make_proxy W7 2 2 5).1.tbl.lookupPath 2).isSome = true
      ∧ (make_proxy W7 2 2 5).2.2 = some ⟨2, 5⟩)
    ∧ ((make_proxy W7b 2 3 5).2.2 = none
      ∧ ((make_proxy W7b 2 3 5).1.tbl.lookupPath 3).isSome = false) :=
  ⟨⟨(make_proxy_requires_route W7 2 2 5).1 (by decide), by decide⟩,
   ⟨(make_proxy_requires_route W7b 2 3 5).2 (by decide), by decide⟩⟩

/-- C10.  When `make_proxy(nid, aid)` runs with valid ids and `nid` differs
from the peer node of the current connection context, the broker first adds
an indirect route to `nid` through that peer: the routing table of the
post-state is exactly `add_indirect(peer, nid)` applied to the old table
(whatever the path lookup then returns), under the stated side conditions
the updated table records `peer` as the next hop of `nid`, and the path
lookup deciding proxy creation is evaluated on that updated table. -/
theorem make_proxy_learns_indirect_route (s : BrokerState) (ctxId nid : NodeId)
    (aid : ActorId) (h1 : nid ≠ 0) (h2 : aid ≠ 0) (h3 : nid ≠ ctxId)
    (h4 : lookupDirect s.tbl nid = none)
    (h5 : (lookupDirect s.tbl ctxId).isSome = true) :
    (make_proxy s ctxId nid aid).1.tbl = addIndirect s.tbl ctxId nid
    ∧ (addIndirect s.tbl ctxId nid).indirect.lookup nid = some ctxId
    ∧ (make_proxy s ctxId nid aid).2.2.isSome
        = ((addIndirect s.tbl ctxId nid).lookupPath nid).isSome := by
  have h0 : ¬(nid = 0 ∨ aid = 0) := by tauto
  have h5' : lookupDirect s.tbl ctxId ≠ none := by
    intro hc
    rw [hc] at h5
    simp at h5
  refine ⟨?_, ?_, ?_⟩
  · unfold make_proxy
    rw [if_neg h0, if_pos h3]
    dsimp only
    split <;> simp_all
  · simp [addIndirect, h4, h5', List.lookup]
  · unfold make_proxy
    rw [if_neg h0, if_pos h3]
    dsimp only
    split <;> simp_all

def W10 : BrokerState := ⟨1, ⟨[(2, 7)], []⟩, [], [], [], ⟨[], []⟩⟩

theorem make_proxy_learns_indirect_route_witness :
    (make_proxy W10 2 3 4).1.tbl = addIndirect W10.tbl 2 3
    ∧ (addIndirect W10.tbl 2 3).indirect.lookup 3 = some 2
    ∧ (make_proxy W10 2 3 4).2.2.isSome = ((addIndirect W10.tbl 2 3).lookupPath 3).isSome :=
  make_proxy_learns_indirect_route W10 2 3 4 (by decide) (by decide) (by decide)
    (by decide) (by decide)

/-- Concrete state refuting C3: node `5` has a direct entry (handle `1`),
indirect entries involving `5` on both coordinates, one proxy, a
`known_remotes` record and no contexts. -/
def CE3 : BrokerState :=
  ⟨1, ⟨[(5, 1)], [(5, 3), (7, 5)]⟩, [(5, 9)], [], [(5, 4, ⟨1, 7⟩)], ⟨[], []⟩⟩

/-- C3 counterexample.  The claim states that `purge_state(5)` drops every
indirect routing entry pointing at node `5` and drops the direct routing
entry for `5`; on `CE3` the routing table after `purge_state(5)` is bitwise
unchanged — the direct entry `(5, 1)` and both indirect entries survive —
so the claim is false at this input.  (`purge_state` never touches the
routing table; route removal happens elsewhere, in the instance code.) -/
theorem purge_state_keeps_routes_cex :
    (purge_state CE3 5).1.tbl.direct = [(5, 1)]
    ∧ (purge_state CE3 5).1.tbl.indirect = [(5, 3), (7, 5)] :=
  ⟨rfl, rfl⟩

/-- C3 amended.  `purge_state(nid)` is a no-op when `nid` has no direct
routing entry; when a direct handle `hdl` exists it emits `kill_proxy` with
`remote_link_unreachable` to each local proxy of `nid`, erases all proxies
of `nid`, erases the connection context stored under `hdl`, and forgets
`known_remotes[nid]` — while leaving the routing table unchanged. -/
theorem purge_state_behaviour (s : BrokerState) (nid : NodeId) :
    (lookupDirect s.tbl nid = none → purge_state s nid = (s, []))
    ∧ ∀ hdl, lookupDirect s.tbl nid = some hdl →
        (purge_state s nid).1.tbl = s.tbl
        ∧ (∀ p ∈ s.ns, p.1 = nid →
            Effect.killProxy p.1 p.2 remoteLinkUnreachable ∈ (purge_state s nid).2)
        ∧ (∀ p ∈ (purge_state s nid).1.ns, p.1 ≠ nid)
        ∧ (∀ k ∈ (purge_state s nid).1.knownRemotes, k.1 ≠ nid)
        ∧ (∀ c ∈ (purge_state s nid).1.ctxs, c.1 ≠ hdl) := by
  constructor
  · intro h
    simp [purge_state, h]
  · intro hdl h
    refine ⟨?_, ?_, ?_, ?_, ?_⟩
    · simp [purge_state, h]
    · intro p hp hpn
      simp only [purge_state, h]
      exact List.mem_map.2 ⟨p, List.mem_filter.2 ⟨hp, by simp [hpn]⟩, rfl⟩
    · intro p hp
      simp only [purge_state, h] at hp
      have := (List.mem_filter.1 hp).2
      simpa using this
    · intro k hk
      simp only [purge_state, h] at hk
      have := (List.mem_filter.1 hk).2
      simpa using this
    · intro c hc
      simp only [purge_state, h] at hc
      have := (List.mem_filter.1 hc).2
      simpa using this

theorem purge_state_behaviour_witness :
    (purge_state CE3 5).1.tbl = CE3.tbl
    ∧ Effect.killProxy 5 9 remoteLinkUnreachable ∈ (purge_state CE3 5).2
    ∧ (∀ p ∈ (purge_state CE3 5).1.ns, p.1 ≠ 5) :=
  ⟨((purge_state_behaviour CE3 5).2 1 rfl).1,
   ((purge_state_behaviour CE3 5).2 1 rfl).2.1 (5, 9) (by decide) rfl,
   ((purge_state_behaviour CE3 5).2 1 rfl).2.2.1⟩

/-- C2.  `finalize_handshake` with a pending callback and an advertised
signature set that does not include every expected signature delivers
exactly the error message "expected signature does not comply to found
signature" and delivers no ok reply for that handshake. -/
theorem finalize_handshake_sig_mismatch (s : BrokerState) (c : ConnectionContext)
    (nid : NodeId) (aid : ActorId) (sigs : List String)
    (hcb : c.callback = some ())
    (hsig : setIncludes c.expectedSigs sigs = false) :
    (finalize_handshake s c nid aid sigs).2.2
      = [Effect.deliverCb (CbMsg.errMsg
          "expected signature does not comply to found signature")]
    ∧ ∀ a, Effect.deliverCb (CbMsg.okAddr a) ∉ (finalize_handshake s c nid aid sigs).2.2 := by
  constructor
  · simp [finalize_handshake, hcb, hsig]
  · intro a
    simp [finalize_handshake, hcb, hsig]

def W2s : BrokerState := ⟨1, ⟨[], []⟩, [], [], [], ⟨[], []⟩⟩

def W2c : ConnectionContext :=
  ⟨ConnState.awaitHeader, ⟨0⟩, 3, 0, 42, some (), ["caf::other"]⟩

theorem finalize_handshake_sig_mismatch_witness :
    (finalize_handshake W2s W2c 2 7 ["caf::rep"]).2.2
      = [Effect.deliverCb (CbMsg.errMsg
          "expected signature does not comply to found signature")] :=
  (finalize_handshake_sig_mismatch W2s W2c 2 7 ["caf::rep"] rfl (by decide)).1

theorem countCb_nil : countCb [] = 0 := rfl

theorem countCb_single_cb (m : CbMsg) : countCb [Effect.deliverCb m] = 1 := rfl

theorem finalize_callback_cleared (s : BrokerState) (c : ConnectionContext)
    (nid : NodeId) (aid : ActorId) (sigs : List String) :
    (finalize_handshake s c nid aid sigs).2.1.callback = none := by
  unfold finalize_handshake
  cases hcb : c.callback with
  | none => simp [hcb]
  | some u =>
    simp only [hcb]
    split
    · simp [clearCb]
    · split
      · simp [clearCb]
      · dsimp only
        simp [clearCb]

theorem countCb_make_proxy (s : BrokerState) (ctxId nid : NodeId) (aid : ActorId) :
    countCb (make_proxy s ctxId nid aid).2.1 = 0 := by
  unfold make_proxy
  split
  · rfl
  · dsimp only
    split <;> rfl

theorem countCb_get_or_put (s : BrokerState) (ctxId nid : NodeId) (aid : ActorId) :
    countCb (get_or_put s ctxId nid aid).2.1 = 0 := by
  unfold get_or_put
  split
  · rfl
  · exact countCb_make_proxy s ctxId nid aid

theorem finalize_countCb_le_one (s : BrokerState) (c : ConnectionContext)
    (nid : NodeId) (aid : ActorId) (sigs : List String) :
    countCb (finalize_handshake s c nid aid sigs).2.2 ≤ 1 := by
  unfold finalize_handshake
  cases hcb : c.callback with
  | none => simp [hcb, countCb_nil]
  | some u =>
    simp only [hcb]
    split
    · simp [countCb_single_cb]
    · split
      · simp [countCb_single_cb]
      · dsimp only
        rw [countCb_append]
        by_cases hn : nid = s.thisNode
        · simp [hn, countCb_nil, countCb_single_cb]
        · simp [hn, countCb_get_or_put, countCb_single_cb]

/-- C6.  Handshake exclusivity: over a run of `finalize_handshake` on a
connection context followed by an erasure of that context (as the
`connection_closed` handler performs), the handshake callback is delivered
at most once.  `finalize_handshake` clears the callback under a scope guard
on every delivering path, so a later `erase_context` finds no pending
callback and delivers nothing more. -/
theorem handshake_callback_at_most_once (s : BrokerState) (c : ConnectionContext)
    (nid : NodeId) (aid : ActorId) (sigs : List String) :
    countCb (finalizeThenErase s c nid aid sigs) ≤ 1 := by
  unfold finalizeThenErase
  dsimp only
  rw [countCb_append]
  have h1 := finalize_callback_cleared s c nid aid sigs
  have h2 := finalize_countCb_le_one s c nid aid sigs
  have h3 : (erase_context (putCtx (finalize_handshake s c nid aid sigs).1 c.hdl
      (finalize_handshake s c nid aid sigs).2.1) c.hdl).2.2 = [] := by
    unfold erase_context putCtx
    simp [List.lookup, h1]
  rw [h3, countCb_nil]
  omega

/-- Concrete broker state for the C4 counterexample: one peered node with a
direct route, nothing else. -/
def CE4 : BrokerState := ⟨1, ⟨[(2, 7)], []⟩, [], [], [], ⟨[], []⟩⟩

/-- C4 counterexample.  The claim states that a forward whose receiver is the
invalid actor address makes the broker deliver an error to the initiator; on
`CE4` the `forward_atom` handler returns with an empty effect list — no error
message (and no dispatch) is produced, the request is silently dropped after
a log warning — so the claim is false at this input. -/
theorem forward_invalid_no_error_cex :
    forwardHandler CE4 ⟨2, 5⟩ invalidActorAddr ⟨1, false⟩ = (CE4, []) := rfl

/-- C4 amended.  For every forward whose receiver is the invalid actor
address or a local (non-remote) actor, the broker neither dispatches the
message nor emits anything else: the handler drops the message (after a log
warning) and the state is unchanged; in particular no error reply reaches
the initiator. -/
theorem forward_invalid_or_local_drops (s : BrokerState) (sender receiver : ActorAddr)
    (mid : MessageId)
    (h : receiver = invalidActorAddr ∨ isRemote s receiver = false) :
    forwardHandler s sender receiver mid = (s, []) := by
  simp [forwardHandler, h]

theorem forward_invalid_or_local_drops_witness :
    forwardHandler CE4 ⟨2, 5⟩ ⟨1, 9⟩ ⟨1, false⟩ = (CE4, []) :=
  forward_invalid_or_local_drops CE4 ⟨2, 5⟩ ⟨1, 9⟩ ⟨1, false⟩ (Or.inr (by decide))

/-- Concrete broker state for C5: handle `3` has a connection context whose
handshake callback is still pending (a client connect awaiting the server
handshake). -/
def CE5 : BrokerState :=
  ⟨1, ⟨[], []⟩, [],
   [(3, ⟨ConnState.awaitHeader, ⟨0⟩, 3, 0, 42, some (), ["caf::sig"]⟩)],
   [], ⟨[], []⟩⟩

/-- C5.  When the protocol machine reports `close_connection` (for example on
a frame with an unknown opcode), the `new_data_msg` handler closes the
connection and erases the context straight from the map
(`state.ctx.erase(msg.handle)`), bypassing `erase_context`: although the
context of handle `3` holds a pending handshake callback, the emitted
effects are only the close — the callback is never delivered an error.  The
last conjunct shows that `erase_context`, which the `connection_closed` path
uses, would have delivered the error; the claim (and the evident intent of
`erase_context`) requires that delivery on both destruction paths, so the
raw map erase in the close path is a code bug. -/
theorem close_path_drops_pending_callback :
    ((CE5.ctxs.lookup 3).map (fun c => c.callback)) = some (some ())
    ∧ handleNewData CE5 3 ConnState.closeConnection ⟨0⟩
        = ({ CE5 with ctxs := [] }, [Effect.closeConn 3])
    ∧ countCb (handleNewData CE5 3 ConnState.closeConnection ⟨0⟩).2 = 0
    ∧ (erase_context CE5 3).2.2
        = [Effect.deliverCb (CbMsg.errMsg "disconnect during handshake")] := by
  refine ⟨rfl, ?_, rfl, rfl⟩
  simp [handleNewData, set_context, CE5, List.lookup]

theorem effects_clean_make_proxy (s : BrokerState) (ctxId nid : NodeId) (aid : ActorId) :
    hasBounce (make_proxy s ctxId nid aid).2.1 = false
    ∧ hasEnqueue (make_proxy s ctxId nid aid).2.1 = false := by
  unfold make_proxy
  split
  · exact ⟨rfl, rfl⟩
  · dsimp only
    split <;> exact ⟨rfl, rfl⟩

theorem effects_clean_get_or_put (s : BrokerState) (ctxId nid : NodeId) (aid : ActorId) :
    hasBounce (get_or_put s ctxId nid aid).2.1 = false
    ∧ hasEnqueue (get_or_put s ctxId nid aid).2.1 = false := by
  unfold get_or_put
  split
  · exact ⟨rfl, rfl⟩
  · exact effects_clean_make_proxy s ctxId nid aid

theorem effects_clean_resolveSrc (s : BrokerState) (ctxId sn : NodeId) (sa : ActorId) :
    hasBounce (resolveSrc s ctxId sn sa).2.1 = false
    ∧ hasEnqueue (resolveSrc s ctxId sn sa).2.1 = false := by
  unfold resolveSrc
  split
  · exact ⟨rfl, rfl⟩
  · dsimp only
    exact effects_clean_get_or_put s ctxId sn sa

theorem effects_clean_resolveDest (s : BrokerState) (ctxId dn : NodeId) (da : ActorId) :
    hasBounce (resolveDest s ctxId dn da).2.1 = false
    ∧ hasEnqueue (resolveDest s ctxId dn da).2.1 = false := by
  unfold resolveDest
  split
  · exact ⟨rfl, rfl⟩
  · dsimp only
    exact effects_clean_get_or_put s ctxId dn da

theorem hasBounce_bouncer (rsn : Nat) (sender : ActorAddr) (mid : MessageId) :
    hasBounce (bouncerEffects rsn sender mid) = true
      ↔ (mid.isRequest = true ∧ sender ≠ invalidActorAddr) := by
  unfold bouncerEffects
  split <;> simp_all [hasBounce, isBounceE]

theorem hasEnqueue_bouncer (rsn : Nat) (sender : ActorAddr) (mid : MessageId) :
    hasEnqueue (bouncerEffects rsn sender mid) = false := by
  unfold bouncerEffects
  split <;> rfl

theorem isRequest_imp_valid (mid : MessageId) (h : mid.isRequest = true) :
    mid.valid = true := by
  simp only [MessageId.isRequest, Bool.and_eq_true] at h
  exact h.1

theorem hasBounce_single_enqueue (d src : ActorAddr) (mid : MessageId) :
    hasBounce [Effect.enqueueMsg d src mid] = false := rfl

/-- C1.  Bounce characterisation of `deliver`: a bounce is emitted if and
only if the destination could not be resolved, the message id marks a
request, and the resolved source address is valid; moreover whenever the
destination is missing no message is enqueued, so in every non-bounce case
the message is silently dropped.  The guard in the source tests
`mid.valid()`, but the bouncer it invokes acts only when the sender expects
a reply, so the emitted bounce is conditioned on `is_request` exactly as
the claim states. -/
theorem deliver_bounce_iff (s : BrokerState) (ctxId sn : NodeId) (sa : ActorId)
    (dn : NodeId) (da : ActorId) (mid : MessageId) :
    (hasBounce (deliver s ctxId sn sa dn da mid).2 = true ↔
      ((resolveDest (resolveSrc s ctxId sn sa).1 ctxId dn da).2.2.1 = none
        ∧ mid.isRequest = true
        ∧ (resolveSrc s ctxId sn sa).2.2 ≠ invalidActorAddr))
    ∧ ((resolveDest (resolveSrc s ctxId sn sa).1 ctxId dn da).2.2.1 = none →
        hasEnqueue (deliver s ctxId sn sa dn da mid).2 = false) := by
  have hcs := effects_clean_resolveSrc s ctxId sn sa
  have hcd := effects_clean_resolveDest (resolveSrc s ctxId sn sa).1 ctxId dn da
  unfold deliver
  dsimp only
  rcases hd : (resolveDest (resolveSrc s ctxId sn sa).1 ctxId dn da).2.2.1 with _ | d
  · by_cases hg : (mid.valid = true ∧ (resolveSrc s ctxId sn sa).2.2 ≠ invalidActorAddr)
    · simp only [hd, if_pos hg]
      constructor
      · rw [hasBounce_append, hasBounce_append, hcs.1, hcd.1]
        simp only [Bool.false_or]
        rw [hasBounce_bouncer]
        exact ⟨fun hh => ⟨by trivial, hh.1, hh.2⟩, fun hh => ⟨hh.2.1, hh.2.2⟩⟩
      · intro _
        rw [hasEnqueue_append, hasEnqueue_append, hcs.2, hcd.2, hasEnqueue_bouncer]
        rfl
    · simp only [hd, if_neg hg]
      constructor
      · rw [hasBounce_append, hcs.1, hcd.1]
        constructor
        · intro hh
          exact absurd hh (by simp)
        · rintro ⟨-, hreq, hsrc⟩
          exact absurd ⟨isRequest_imp_valid mid hreq, hsrc⟩ hg
      · intro _
        rw [hasEnqueue_append, hcs.2, hcd.2]
        rfl
  · simp only [hd]
    constructor
    · rw [hasBounce_append, hasBounce_append, hcs.1, hcd.1, hasBounce_single_enqueue]
      simp
    · intro hh
      exact absurd hh (by simp)

def W1 : BrokerState := ⟨1, ⟨[], []⟩, [], [], [], ⟨[7], []⟩⟩

theorem deliver_bounce_iff_witness :
    hasBounce (deliver W1 0 1 7 1 9 ⟨5, false⟩).2 = true :=
  (deliver_bounce_iff W1 0 1 7 1 9 ⟨5, false⟩).1.mpr ⟨rfl, rfl, by decide⟩
